import Mathlib

/-!
# Verification of the sftp-ws SFTP v3 client core

Shallow embedding of the wire-protocol engine of the `sftp-ws` repository
(`src/lib/sftp-client.ts` and the unnamed misc module `src/unnamed/part_000`
holding `SftpFlags`, `SftpExtensions`, `SftpAttributes`).  Machine integers
are modelled as `Nat`/`Int` with explicit reductions modulo `2^32`/`2^64`
where the JavaScript code masks; byte buffers are `List Nat` (each entry a
byte value); fallible code returns `Option`/`Except`.

The packet reader/writer module (`sftp-packet.ts`) is not part of the given
sources; its typed field codecs are modelled from the spec (§4.1, §6):
big-endian integers of widths 32 and 64, and length-prefixed byte strings.
-/

/-! ## Byte-level codec primitives

Modelled from the spec: `sftp-packet.ts` (packet reader/writer) is missing
from the sources.  The spec (§4.1, §6) describes typed big-endian field I/O:
`writeInt32`/`writeInt64` emit 4/8 bytes, `readUint32` reads 4 bytes as an
unsigned value, `readInt32`/`readInt64` read signed values, and
`writeData`/`readData` use a 32-bit length followed by the raw bytes. -/

/-- Big-endian bytes of `v % 2^32` (the writer masks to 32 bits). -/
def u32Bytes (v : Nat) : List Nat :=
  [v / 2 ^ 24 % 256, v / 2 ^ 16 % 256, v / 2 ^ 8 % 256, v % 256]

/-- Source `writeInt32`: two's-complement encoding of a signed 32-bit value. -/
def i32Bytes (v : Int) : List Nat :=
  u32Bytes (v % 2 ^ 32).toNat

/-- Big-endian bytes of `v % 2^64`. -/
def u64Bytes (v : Nat) : List Nat :=
  u32Bytes (v / 2 ^ 32) ++ u32Bytes v

/-- Source `writeInt64`: two's-complement encoding of a signed 64-bit value. -/
def i64Bytes (v : Int) : List Nat :=
  u64Bytes (v % 2 ^ 64).toNat

/-- Source `readUint32`: consume 4 bytes, big-endian. -/
def readU32 : List Nat → Option (Nat × List Nat)
  | a :: b :: c :: d :: rest =>
      some (a * 2 ^ 24 + b * 2 ^ 16 + c * 2 ^ 8 + d, rest)
  | _ => none

/-- Source `readInt32`: consume 4 bytes, big-endian, signed. -/
def readI32 (bs : List Nat) : Option (Int × List Nat) :=
  (readU32 bs).map fun (u, rest) =>
    (if u < 2 ^ 31 then (u : Int) else (u : Int) - 2 ^ 32, rest)

/-- Source `readInt64`: consume 8 bytes, big-endian, signed. -/
def readI64 (bs : List Nat) : Option (Int × List Nat) := do
  let (hi, rest) ← readU32 bs
  let (lo, rest) ← readU32 rest
  let u : Nat := hi * 2 ^ 32 + lo
  pure (if u < 2 ^ 63 then (u : Int) else (u : Int) - 2 ^ 64, rest)

/-- Source `writeData` / `writeString`: 32-bit length followed by the raw bytes. -/
def dataBytes (s : List Nat) : List Nat :=
  u32Bytes s.length ++ s

/-- Source `readData` / `readString`: consume a 32-bit length and that many bytes. -/
def readDataField (bs : List Nat) : Option (List Nat × List Nat) := do
  let (n, rest) ← readU32 bs
  if n ≤ rest.length then pure (rest.take n, rest.drop n) else none

/-! ## `SftpFlags` (src/unnamed/part_000, lines 15–92) -/

/-- Open-flag bits (spec §6): READ=1, WRITE=2, APPEND=4, CREATE=8,
TRUNC=16, EXCL=32, ALL = 63. -/
def SftpOpenFlags.READ : Nat := 1
def SftpOpenFlags.WRITE : Nat := 2
def SftpOpenFlags.APPEND : Nat := 4
def SftpOpenFlags.CREATE : Nat := 8
def SftpOpenFlags.TRUNC : Nat := 16
def SftpOpenFlags.EXCL : Nat := 32
def SftpOpenFlags.ALL : Nat := 63

/-- Source `SftpFlags.toNumber` on symbolic strings (the numeric fast path of the
source, which masks a number argument with `ALL`, is not reachable from a
string argument); the `throw` on an unrecognised string is `none`. -/
def SftpFlags.toNumber (flags : String) : Option Nat :=
  if flags = "r" then some 1
  else if flags = "r+" then some 3
  else if flags = "w" then some 26
  else if flags = "w+" then some 27
  else if flags = "wx" ∨ flags = "xw" then some 42
  else if flags = "wx+" ∨ flags = "xw+" then some 43
  else if flags = "a" then some 14
  else if flags = "a+" then some 15
  else if flags = "ax" ∨ flags = "xa" then some 46
  else if flags = "ax+" ∨ flags = "xa+" then some 47
  else none

/-- The normalization pipeline of `SftpFlags.fromNumber`: mask with `ALL`,
then apply the four rules in source order. -/
def SftpFlags.normalize (flags0 : Nat) : Nat :=
  let f1 := flags0 &&& SftpOpenFlags.ALL
  -- 'truncate' does not apply when creating a new file
  let f2 := if f1 &&& SftpOpenFlags.EXCL ≠ 0 then
              f1 &&& (SftpOpenFlags.ALL ^^^ SftpOpenFlags.TRUNC) else f1
  -- 'append' does not apply when truncating
  let f3 := if f2 &&& SftpOpenFlags.TRUNC ≠ 0 then
              f2 &&& (SftpOpenFlags.ALL ^^^ SftpOpenFlags.APPEND) else f2
  -- 'read' or 'write' must be specified (or both)
  let f4 := if f3 &&& (SftpOpenFlags.READ ||| SftpOpenFlags.WRITE) = 0 then
              f3 ||| SftpOpenFlags.READ else f3
  -- when not creating, only 'read'/'write' apply; when creating, force 'write'
  if f4 &&& SftpOpenFlags.CREATE = 0 then
    f4 &&& (SftpOpenFlags.READ ||| SftpOpenFlags.WRITE)
  else
    f4 ||| SftpOpenFlags.WRITE

/-- Source `SftpFlags.fromNumber`: the table lookup on the normalized bitmask; the
trailing `throw Error("Unsupported flags")` is `none`. -/
def SftpFlags.fromNumber (flags : Nat) : Option (List String) :=
  match SftpFlags.normalize flags with
  | 1 => some ["r"]
  | 2 => some ["r+"]
  | 3 => some ["r+"]
  | 10 => some ["wx", "r+"]
  | 11 => some ["wx+", "r+"]
  | 14 => some ["a"]
  | 15 => some ["a+"]
  | 26 => some ["w"]
  | 27 => some ["w+"]
  | 42 => some ["wx"]
  | 43 => some ["wx+"]
  | 46 => some ["ax"]
  | 47 => some ["ax+"]
  | _ => none

/-- The thirteen keys of the `fromNumber` table (twelve entries; `2` and `3`
share the `r+` row). -/
def SftpFlags.tableKeys : List Nat := [1, 2, 3, 10, 11, 14, 15, 26, 27, 42, 43, 46, 47]

/-! ## `SftpExtensions` (src/unnamed/part_000, lines 94–217) -/

/-- Source `SftpExtensions.contains`: comma-tolerant membership in a
comma-separated value string — prepend/append commas and search for the
comma-wrapped value as an infix. -/
def SftpExtensions.contains (values value : String) : Bool :=
  decide (("," ++ value ++ ",").data <:+: ("," ++ values ++ ",").data)

/-- One step of the extension loop of `SftpClientCore._init`
(src/lib/sftp-client.ts lines 227–242): for a name whose first occurrence of
`"@openssh.com"` is at `length - 12`, a comma-joined accumulation `val` is
computed — but the store that follows writes `value`, not `val`, so the
accumulation is discarded and the last value wins. -/
def initExtensionStep (exts : List (String × String)) (name value : String)
    : List (String × String) :=
  let isOpenssh :=
    ((name.splitOn "@openssh.com").headD name).length + 12 = name.length
  -- the accumulated value, computed and then discarded by the source
  let val : String :=
    if isOpenssh then
      match exts.lookup name with
      | none => value
      | some v => v ++ "," ++ value
    else value
  let _ := val
  -- `this._extensions[extensionName] = value;` — stores `value`, not `val`
  (exts.filter fun p => p.1 ≠ name) ++ [(name, value)]

/-- The whole extension loop over the `(name, value)` pairs of a VERSION
packet, in arrival order. -/
def initExtensions (pairs : List (String × String)) : List (String × String) :=
  pairs.foldl (fun exts p => initExtensionStep exts p.1 p.2) []

/-! ## `SftpAttributes` (src/unnamed/part_000, lines 309–476) -/

/-- Attribute-flag bits (spec §6). -/
def SftpAttributeFlags.SIZE : Nat := 0x00000001
def SftpAttributeFlags.UIDGID : Nat := 0x00000002
def SftpAttributeFlags.PERMISSIONS : Nat := 0x00000004
def SftpAttributeFlags.ACMODTIME : Nat := 0x00000008
def SftpAttributeFlags.EXTENDED : Nat := 0x80000000

/-- Tagged metadata values of the `meta@sftp.ws` sub-block; type tags
0=null, 1=bool, 2=i64, 3=string, 4=json (kept as its raw string). -/
inductive MetaValue where
  | null
  | bool (b : Bool)
  | int (v : Int)
  | str (s : List Nat)
  | json (s : List Nat)
deriving DecidableEq, Repr

/-- A metadata map: insertion-ordered keyed entries (a JS object). -/
abbrev Metadata := List (List Nat × MetaValue)

/-- JS object assignment `metadata[key] = value`: overwrite in place or
append. -/
def metadataSet (m : Metadata) (k : List Nat) (v : MetaValue) : Metadata :=
  if (m.lookup k).isSome then m.map (fun p => if p.1 = k then (k, v) else p)
  else m ++ [(k, v)]

/-- ASCII bytes of an extension name. -/
def strBytes (s : String) : List Nat := s.data.map Char.toNat

/-- The reserved metadata extension name `meta@sftp.ws`. -/
def metaExtensionName : List Nat := strBytes "meta@sftp.ws"

/-- Source `readByte`. -/
def readByteField : List Nat → Option (Nat × List Nat)
  | b :: rest => some (b, rest)
  | _ => none

/-- Source `skipString`: read and discard one length-prefixed string. -/
def skipStringField (bs : List Nat) : Option (List Nat) :=
  (readDataField bs).map Prod.snd

/-- The entry loop of `readMetadata` (src/unnamed/part_000 lines 274–306),
over the structured sub-block's bytes.  `some (some m)` is the `return
metadata` on an empty key; `some none` is the fall-off-the-end path, where
the JS function returns `undefined`; `none` is a codec bounds failure. -/
def readMetadataLoop : Nat → List Nat → Metadata → Option (Option Metadata)
  | _, [], _ => some none
  | 0, _, _ => none
  | fuel + 1, bs, acc => do
      let (key, rest) ← readDataField bs
      if key.length = 0 then pure (some acc)
      else do
        let (t, rest) ← readByteField rest
        match t with
        | 0 => do
            let rest ← skipStringField rest
            readMetadataLoop fuel rest (metadataSet acc key .null)
        | 1 => do
            let (b, rest) ← readByteField rest
            readMetadataLoop fuel rest (metadataSet acc key (.bool (b ≠ 0)))
        | 2 => do
            let (v, rest) ← readI64 rest
            readMetadataLoop fuel rest (metadataSet acc key (.int v))
        | 3 => do
            let (s, rest) ← readDataField rest
            readMetadataLoop fuel rest (metadataSet acc key (.str s))
        | 4 => do
            let (s, rest) ← readDataField rest
            readMetadataLoop fuel rest (metadataSet acc key (.json s))
        | _ => do
            -- unknown tag: skip one string and continue
            let rest ← skipStringField rest
            readMetadataLoop fuel rest acc

/-- Source `readMetadata`: peel the structured sub-block (`readStructuredData`)
and run the entry loop on it. -/
def readMetadata (bs : List Nat) : Option (Option Metadata × List Nat) := do
  let (inner, rest) ← readDataField bs
  let md ← readMetadataLoop (inner.length + 1) inner []
  pure (md, rest)

/-- Source `writeMetadata` (src/unnamed/part_000 lines 251–272): the source
serializes every entry into a freshly allocated detached writer
(`new SftpPacketWriter(0x4000)`) and never copies those bytes into the
parent packet.  This function produces the detached buffer; the attribute
encoder discards it, exactly as the source does. -/
def writeMetadataDetached (m : Metadata) : List Nat :=
  m.foldl
    (fun acc p =>
      acc ++ dataBytes p.1 ++
        match p.2 with
        | .null => [0]
        | .bool b => [1, if b then 1 else 0]
        | .int v => 2 :: i64Bytes v
        | .str s => 3 :: dataBytes s
        | .json s => 4 :: dataBytes s)
    []

/-- The attributes record: fields present iff the matching `flags` bit is
set; times are stored as whole seconds (the `Date` holds `1000 *` that). -/
structure SftpAttributes where
  flags : Nat
  size : Option Int := none
  uid : Option Int := none
  gid : Option Int := none
  mode : Option Nat := none
  atime : Option Nat := none
  mtime : Option Nat := none
  metadata : Option Metadata := none
deriving DecidableEq, Repr

/-- Source `writeInt64(this.size)` under the `SIZE` bit. -/
def writeOptSize (flags : Nat) (size : Option Int) : List Nat :=
  if flags &&& SftpAttributeFlags.SIZE ≠ 0 then i64Bytes (size.getD 0) else []

/-- Source `writeInt32(this.uid); writeInt32(this.gid)` under the `UIDGID` bit. -/
def writeOptUidGid (flags : Nat) (uid gid : Option Int) : List Nat :=
  if flags &&& SftpAttributeFlags.UIDGID ≠ 0 then
    i32Bytes (uid.getD 0) ++ i32Bytes (gid.getD 0)
  else []

/-- Source `writeInt32(this.mode)` under the `PERMISSIONS` bit. -/
def writeOptMode (flags : Nat) (mode : Option Nat) : List Nat :=
  if flags &&& SftpAttributeFlags.PERMISSIONS ≠ 0 then
    i32Bytes ((mode.getD 0 : Nat) : Int)
  else []

/-- Source `writeInt32(atime.getTime() / 1000)` and likewise `mtime` under the
`ACMODTIME` bit (times held as whole seconds). -/
def writeOptTimes (flags : Nat) (atime mtime : Option Nat) : List Nat :=
  if flags &&& SftpAttributeFlags.ACMODTIME ≠ 0 then
    i32Bytes ((atime.getD 0 : Nat) : Int) ++ i32Bytes ((mtime.getD 0 : Nat) : Int)
  else []

/-- The `EXTENDED` tail: with a metadata payload, count 1 plus the reserved
name — and the `writeMetadata` call contributing nothing to the stream
(detached buffer); otherwise count 0. -/
def writeExtendedBlock (flags : Nat) (metadata : Option Metadata) : List Nat :=
  if flags &&& SftpAttributeFlags.EXTENDED ≠ 0 then
    match metadata with
    | some md =>
        let _detached := writeMetadataDetached md
        i32Bytes 1 ++ dataBytes metaExtensionName
    | none => i32Bytes 0
  else []

/-- Source `SftpAttributes.write` (src/unnamed/part_000 lines 399–432): emit the
flags word then each present field in fixed order; under `EXTENDED`, a
present `metadata` emits count 1 and the reserved name, and the call to
`writeMetadata` contributes nothing to the stream (detached buffer); an
absent `metadata` emits count 0. -/
def SftpAttributes.write (a : SftpAttributes) : List Nat :=
  i32Bytes a.flags ++
  writeOptSize a.flags a.size ++
  writeOptUidGid a.flags a.uid a.gid ++
  writeOptMode a.flags a.mode ++
  writeOptTimes a.flags a.atime a.mtime ++
  writeExtendedBlock a.flags a.metadata

/-- The `(extended_type, extended_data)` pair loop of the decoding
constructor: on the reserved metadata name, parse the metadata sub-block;
otherwise skip the data string. -/
def readExtendedPairs : Nat → List Nat → Option Metadata
    → Option (Option Metadata × List Nat)
  | 0, bs, md => some (md, bs)
  | n + 1, bs, md => do
      let (name, rest) ← readDataField bs
      if name = metaExtensionName then do
        let (md2, rest2) ← readMetadata rest
        readExtendedPairs n rest2 md2
      else do
        let rest ← skipStringField rest
        readExtendedPairs n rest md

/-- Source `this.size = reader.readInt64()` under the `SIZE` bit. -/
def readOptSize (flags : Nat) (bs : List Nat) : Option (Option Int × List Nat) :=
  if flags &&& SftpAttributeFlags.SIZE ≠ 0 then
    (readI64 bs).map fun p => (some p.1, p.2)
  else some (none, bs)

/-- Source `this.uid = readInt32(); this.gid = readInt32()` under `UIDGID`. -/
def readOptUidGid (flags : Nat) (bs : List Nat)
    : Option (Option Int × Option Int × List Nat) :=
  if flags &&& SftpAttributeFlags.UIDGID ≠ 0 then do
    let (u, r) ← readI32 bs
    let (g, r) ← readI32 r
    pure (some u, some g, r)
  else some (none, none, bs)

/-- Source `this.mode = reader.readUint32()` under `PERMISSIONS`. -/
def readOptMode (flags : Nat) (bs : List Nat) : Option (Option Nat × List Nat) :=
  if flags &&& SftpAttributeFlags.PERMISSIONS ≠ 0 then
    (readU32 bs).map fun p => (some p.1, p.2)
  else some (none, bs)

/-- Source `new Date(1000 * readUint32())` for atime and mtime under `ACMODTIME`. -/
def readOptTimes (flags : Nat) (bs : List Nat)
    : Option (Option Nat × Option Nat × List Nat) :=
  if flags &&& SftpAttributeFlags.ACMODTIME ≠ 0 then do
    let (x, r) ← readU32 bs
    let (y, r) ← readU32 r
    pure (some x, some y, r)
  else some (none, none, bs)

/-- Source `SftpAttributes` decoding constructor (src/unnamed/part_000 lines
357–397): read the flags word, then each flag-gated field; under
`EXTENDED`, clear that bit from the stored flags, read a signed pair
count (negative counts iterate zero times) and walk the pairs. -/
def SftpAttributes.read (bs : List Nat) : Option (SftpAttributes × List Nat) := do
  let (flags, rest) ← readU32 bs
  let (size, rest) ← readOptSize flags rest
  let (uid, gid, rest) ← readOptUidGid flags rest
  let (mode, rest) ← readOptMode flags rest
  let (atime, mtime, rest) ← readOptTimes flags rest
  if flags &&& SftpAttributeFlags.EXTENDED ≠ 0 then do
    let (count, rest) ← readI32 rest
    let (md, rest) ← readExtendedPairs count.toNat rest none
    pure ({ flags := flags &&& 0x7FFFFFFF, size := size, uid := uid, gid := gid,
            mode := mode, atime := atime, mtime := mtime, metadata := md }, rest)
  else
    pure ({ flags := flags, size := size, uid := uid, gid := gid,
            mode := mode, atime := atime, mtime := mtime, metadata := none }, rest)

/-- Representable attribute records: every field present exactly when its
flag bit is set, with values in the wire-representable ranges. -/
def SftpAttributes.wf (a : SftpAttributes) : Prop :=
  a.flags < 2 ^ 32 ∧
  (a.flags &&& SftpAttributeFlags.SIZE = 0 → a.size = none) ∧
  (a.flags &&& SftpAttributeFlags.SIZE ≠ 0 →
    ∃ s, a.size = some s ∧ 0 ≤ s ∧ s < 2 ^ 63) ∧
  (a.flags &&& SftpAttributeFlags.UIDGID = 0 → a.uid = none ∧ a.gid = none) ∧
  (a.flags &&& SftpAttributeFlags.UIDGID ≠ 0 →
    ∃ u g, a.uid = some u ∧ a.gid = some g ∧
      -(2 ^ 31) ≤ u ∧ u < 2 ^ 31 ∧ -(2 ^ 31) ≤ g ∧ g < 2 ^ 31) ∧
  (a.flags &&& SftpAttributeFlags.PERMISSIONS = 0 → a.mode = none) ∧
  (a.flags &&& SftpAttributeFlags.PERMISSIONS ≠ 0 →
    ∃ m, a.mode = some m ∧ m < 2 ^ 32) ∧
  (a.flags &&& SftpAttributeFlags.ACMODTIME = 0 → a.atime = none ∧ a.mtime = none) ∧
  (a.flags &&& SftpAttributeFlags.ACMODTIME ≠ 0 →
    ∃ x y, a.atime = some x ∧ a.mtime = some y ∧ x < 2 ^ 32 ∧ y < 2 ^ 32) ∧
  (a.flags &&& SftpAttributeFlags.EXTENDED = 0 → a.metadata = none)

/-! ## Client core (src/lib/sftp-client.ts) -/

/-- Packet type codes (spec §6). -/
def SftpPacketType.INIT : Nat := 1
def SftpPacketType.VERSION : Nat := 2
def SftpPacketType.OPEN : Nat := 3
def SftpPacketType.CLOSE : Nat := 4
def SftpPacketType.READ : Nat := 5
def SftpPacketType.WRITE : Nat := 6
def SftpPacketType.FSTAT : Nat := 8
def SftpPacketType.FSETSTAT : Nat := 10
def SftpPacketType.READDIR : Nat := 12
def SftpPacketType.RENAME : Nat := 18
def SftpPacketType.STATUS : Nat := 101
def SftpPacketType.DATA : Nat := 103

/-- Status codes (spec §6). -/
def SftpStatusCode.OK : Nat := 0
def SftpStatusCode.EOF : Nat := 1
def SftpStatusCode.NO_SUCH_FILE : Nat := 2
def SftpStatusCode.PERMISSION_DENIED : Nat := 3
def SftpStatusCode.FAILURE : Nat := 4
def SftpStatusCode.BAD_MESSAGE : Nat := 5
def SftpStatusCode.NO_CONNECTION : Nat := 6
def SftpStatusCode.CONNECTION_LOST : Nat := 7
def SftpStatusCode.OP_UNSUPPORTED : Nat := 8

/-- The symbolic code / errno table of `createError`
(src/lib/sftp-client.ts lines 639–704); the second `BAD_MESSAGE` case of
the JS switch is dead code. -/
def errorCodeOf (nativeCode : Nat) : String × Int :=
  if nativeCode = SftpStatusCode.EOF then ("EOF", 1)
  else if nativeCode = SftpStatusCode.NO_SUCH_FILE then ("ENOENT", 34)
  else if nativeCode = SftpStatusCode.PERMISSION_DENIED then ("EACCES", 3)
  else if nativeCode = SftpStatusCode.OK ∨ nativeCode = SftpStatusCode.FAILURE
       ∨ nativeCode = SftpStatusCode.BAD_MESSAGE then ("EFAILURE", -2)
  else if nativeCode = SftpStatusCode.NO_CONNECTION then ("ENOTCONN", 31)
  else if nativeCode = SftpStatusCode.CONNECTION_LOST then ("ESHUTDOWN", 46)
  else if nativeCode = SftpStatusCode.OP_UNSUPPORTED then ("ENOSYS", 35)
  else ("UNKNOWN", -1)

/-- JavaScript `ToInt32`, the result range of the `&` operator: the code
computes `(this._id + 1) & 0xFFFFFFFF`, which in JS is a signed 32-bit
value. -/
def jsToInt32 (v : Int) : Int := (v + 2 ^ 31) % 2 ^ 32 - 2 ^ 31

/-- An outbound packet handed to the channel: a numeric type or an
extension-name string type, the request id (`none` both before `INIT`
assigns the counter and for the `INIT` packet itself), and the typed
payload bytes. -/
structure SftpPacketOut where
  ptype : Nat ⊕ String
  id : Option Int
  payload : List Nat
deriving DecidableEq, Repr

/-- Engine-visible effects: a continuation scheduled with an error on a
later tick (`process.nextTick`), a continuation invoked directly with an
error, a packet handed to the channel, or a thrown exception. -/
inductive SftpEvent where
  | asyncErr (info : String) (native : Nat) (code : String) (errno : Int) (msg : String)
  | callbackErr (key : Option Int) (info : String) (native : Nat) (code : String)
      (errno : Int) (msg : String)
  | sent (p : SftpPacketOut)
  | thrown (msg : String)
deriving DecidableEq, Repr

/-- Session state: bound channel flag (`_host`), the id counter (`_id`,
`none` is the JS `null` before init), and the correlation table
(`_requests`), keyed by request id with the parked command info. -/
structure SftpState where
  host : Bool
  id : Option Int
  requests : List (Option Int × String)
deriving DecidableEq, Repr

/-- Source `getRequest` (src/lib/sftp-client.ts lines 110–126): the request takes
the CURRENT counter value as its id, then the counter moves: `INIT` (only
legal with a `null` counter) sets it to 1; anything else computes
`(this._id + 1) & 0xFFFFFFFF` — a JS signed-32-bit increment, in which a
`null` counter coerces to 0.  Returns `(request.id, new _id)`. -/
def getRequest (ptype : Nat ⊕ String) (sid : Option Int)
    : Except String (Option Int × Option Int) :=
  if ptype = Sum.inl SftpPacketType.INIT then
    if sid ≠ none then Except.error "Already initialized"
    else Except.ok (sid, some 1)
  else
    Except.ok (sid, some (jsToInt32 (sid.getD 0 + 1)))

/-- Source `execute` (src/lib/sftp-client.ts lines 157–191): with no bound channel,
schedule a `NO_CONNECTION` failure and send nothing; a duplicate table entry
throws; otherwise hand the packet to the channel and park the
continuation. -/
def execute (st : SftpState) (p : SftpPacketOut) (info : String)
    : List SftpEvent × SftpState :=
  if st.host = false then
    ([.asyncErr info SftpStatusCode.NO_CONNECTION "ENOTCONN" 31 "Not connected"], st)
  else if (st.requests.lookup p.id).isSome then
    ([.thrown "Duplicate request"], st)
  else
    ([.sent p], { st with requests := st.requests ++ [(p.id, info)] })

/-- The table entries that `Array.prototype.forEach` visits: only
non-negative integer indices.  The continuation parked under the `null`
key (`this._requests[null]`, the in-flight handshake) and entries under
negative ids (the JS signed-32-bit counter after wrap) are plain object
properties, not array indices, and are skipped. -/
def isArrayIndexKey : Option Int × String → Bool
  | (some k, _) => decide (0 ≤ k)
  | (none, _) => false

/-- Source `failRequests` (src/lib/sftp-client.ts lines 304–312): swap the
table for a fresh empty array, then iterate the old one with
`requests.forEach`, failing each VISITED continuation with the mapped
error.  `forEach` visits only non-negative integer indices, so a
continuation parked under the `null` key or a negative id is silently
dropped without being invoked.  (`forEach` visits indices in ascending
order; this model keeps insertion order, which the counted statements
below do not depend on.) -/
def failRequests (st : SftpState) (code : Nat) (msg : String)
    : SftpState × List SftpEvent :=
  ({ st with requests := [] },
   (st.requests.filter isArrayIndexKey).map fun r =>
     .callbackErr r.1 r.2 code (errorCodeOf code).1 (errorCodeOf code).2 msg)

/-- Source `end` (src/lib/sftp-client.ts lines 295–302): detach and close the
channel, then fail all parked continuations with `CONNECTION_LOST`. -/
def sftpEnd (st : SftpState) : SftpState × List SftpEvent :=
  failRequests { st with host := false } SftpStatusCode.CONNECTION_LOST "Connection closed"

/-- Feature keys (class `SftpFeature`). -/
def SftpFeature.HARDLINK : String := "LINK"
def SftpFeature.POSIX_RENAME : String := "POSIX_RENAME"

/-- Payload of a string-argument command: each argument written as a
length-prefixed string. -/
def argsPayload (args : List String) : List Nat :=
  args.foldr (fun s acc => dataBytes (strBytes s) ++ acc) []

/-- Source `command` (src/lib/sftp-client.ts lines 604–619): a string command is
resolved through the feature map (and the JS `undefined` command of the
fallen-through `rename` resolves to `undefined` the same way); a missing
resolution schedules `OP_UNSUPPORTED` and sends nothing; otherwise build
the request and execute it. -/
def commandRun (st : SftpState) (features : List (String × String))
    (cmd : Option (Nat ⊕ String)) (args : List String) (info : String)
    : List SftpEvent × SftpState :=
  let resolved : Option (Nat ⊕ String) :=
    match cmd with
    | some (Sum.inl n) => some (Sum.inl n)
    | some (Sum.inr s) => (features.lookup s).map Sum.inr
    | none => none   -- `this._features[undefined]` is `undefined`
  match resolved with
  | none =>
      ([.asyncErr info SftpStatusCode.OP_UNSUPPORTED "ENOSYS" 35 "Operation not supported"],
       st)
  | some c =>
      match getRequest c st.id with
      | .error e => ([.thrown e], st)
      | .ok (reqId, newId) =>
          let st1 := { st with id := newId }
          execute st1 { ptype := c, id := reqId, payload := argsPayload args } info

/-- Modelled from the spec: `RenameFlags` lives in `fs-api.ts`, which is not
among the sources.  The spec (§4.7) distinguishes only `0`, `OVERWRITE` and
"any other flag"; `OVERWRITE` is some fixed nonzero bit. -/
def RenameFlags.OVERWRITE : Nat := 1

/-- Source `rename` (src/lib/sftp-client.ts lines 475–495): the flags switch picks
the command; its `default` arm schedules an `OP_UNSUPPORTED` failure but
does NOT return, so control falls through to the generic dispatch with the
`command` variable still `undefined`. -/
def rename (st : SftpState) (features : List (String × String))
    (oldPath newPath : String) (flags : Nat) : List SftpEvent × SftpState :=
  let info := "rename"
  let picked : Option (Nat ⊕ String) × List SftpEvent :=
    if flags = RenameFlags.OVERWRITE then
      (some (Sum.inr SftpFeature.POSIX_RENAME), [])
    else if flags = 0 then
      (some (Sum.inl SftpPacketType.RENAME), [])
    else
      (none,
       [.asyncErr info SftpStatusCode.OP_UNSUPPORTED "ENOSYS" 35 "Unsupported rename flags"])
  let (evs, st') := commandRun st features picked.1 [oldPath, newPath] info
  (picked.2 ++ evs, st')

/-- A handle token (`class SftpHandle`): the server-issued byte string and
the owning session (`_this`), identified by session id. -/
structure SftpHandleTok where
  handleBytes : List Nat
  owner : Nat
deriving DecidableEq, Repr

/-- Source `toHandle` (src/lib/sftp-client.ts lines 562–571): a missing handle
throws "Missing handle"; a token whose recorded owner is not the current
session throws "Invalid handle"; otherwise yield the raw handle bytes. -/
def toHandle (sessionId : Nat) (h : Option SftpHandleTok) : Except String (List Nat) :=
  match h with
  | none => .error "Missing handle"
  | some tok =>
      if tok.owner = sessionId then .ok tok.handleBytes
      else .error "Invalid handle"

/-- Source `checkPosition` (lines 599–602). -/
def checkPosition (position : Nat) : Except String Unit :=
  if position ≤ 0x7FFFFFFFFFFFFFFF then .ok () else .error "Invalid position"

/-- Source `checkBuffer` (lines 573–585). -/
def checkBuffer (buffer : List Nat) (offset length : Nat) : Except String Unit :=
  if offset + length ≤ buffer.length then .ok ()
  else .error "Offset or length is out of bands"

def maxReadBlockLength : Nat := 256 * 1024
def maxWriteBlockLength : Nat := 32 * 1024

/-- The handle-accepting operations and their non-handle arguments.  For
`fsetstat` the attribute record is taken already in `SftpAttributes` shape
(the `writeStats` conversion via `SftpAttributes.from`). -/
inductive HandleOp where
  | close
  | read (buffer : Option (List Nat)) (offset length position : Nat)
  | write (buffer : List Nat) (offset length position : Nat)
  | fstat
  | fsetstat (attrs : SftpAttributes)
  | readdir
  | fcopy (fromPosition length : Nat) (toTok : Option SftpHandleTok) (toPosition : Nat)
  | fhash (alg : String) (position length blockSize : Nat)
deriving Repr

/-- Info string of each handle operation. -/
def HandleOp.info : HandleOp → String
  | .close => "close"
  | .read _ _ _ _ => "read"
  | .write _ _ _ _ => "write"
  | .fstat => "fstat"
  | .fsetstat _ => "fsetstat"
  | .readdir => "readdir"
  | .fcopy _ _ _ _ => "fcopy"
  | .fhash _ _ _ _ => "fhash"

/-- Run a handle-accepting operation (src/lib/sftp-client.ts: `close`
line 327, `read` line 338, `write` line 357, `fstat` line 382, `fsetstat`
line 405, `readdir` line 424, `fcopy` line 521, `fhash` line 539).  Every
one of them converts the handle via `toHandle` first; only then are the
remaining arguments validated, the request packet built, and the bytes
handed to the channel by `execute`. -/
def runHandleOp (sessionId : Nat) (st : SftpState) (h : Option SftpHandleTok)
    (op : HandleOp) : Except String (List SftpEvent × SftpState) := do
  match op with
  | .close => do
      let hb ← toHandle sessionId h
      let (reqId, newId) ← getRequest (Sum.inl SftpPacketType.CLOSE) st.id
      pure (execute { st with id := newId }
        { ptype := Sum.inl SftpPacketType.CLOSE, id := reqId, payload := dataBytes hb }
        "close")
  | .read buffer offset length position => do
      let hb ← toHandle sessionId h
      match buffer with
      | some b => checkBuffer b offset length
      | none => pure ()
      checkPosition position
      let length := min length maxReadBlockLength
      let (reqId, newId) ← getRequest (Sum.inl SftpPacketType.READ) st.id
      pure (execute { st with id := newId }
        { ptype := Sum.inl SftpPacketType.READ, id := reqId,
          payload := dataBytes hb ++ i64Bytes position ++ i32Bytes length }
        "read")
  | .write buffer offset length position => do
      let hb ← toHandle sessionId h
      checkBuffer buffer offset length
      checkPosition position
      if length > maxWriteBlockLength then
        throw "Length exceeds maximum allowed data block length"
      let (reqId, newId) ← getRequest (Sum.inl SftpPacketType.WRITE) st.id
      pure (execute { st with id := newId }
        { ptype := Sum.inl SftpPacketType.WRITE, id := reqId,
          payload := dataBytes hb ++ i64Bytes position ++
            dataBytes ((buffer.drop offset).take length) }
        "write")
  | .fstat => do
      let hb ← toHandle sessionId h
      let (reqId, newId) ← getRequest (Sum.inl SftpPacketType.FSTAT) st.id
      pure (execute { st with id := newId }
        { ptype := Sum.inl SftpPacketType.FSTAT, id := reqId, payload := dataBytes hb }
        "fstat")
  | .fsetstat attrs => do
      let hb ← toHandle sessionId h
      let (reqId, newId) ← getRequest (Sum.inl SftpPacketType.FSETSTAT) st.id
      pure (execute { st with id := newId }
        { ptype := Sum.inl SftpPacketType.FSETSTAT, id := reqId,
          payload := dataBytes hb ++ attrs.write }
        "fsetstat")
  | .readdir => do
      let hb ← toHandle sessionId h
      let (reqId, newId) ← getRequest (Sum.inl SftpPacketType.READDIR) st.id
      pure (execute { st with id := newId }
        { ptype := Sum.inl SftpPacketType.READDIR, id := reqId, payload := dataBytes hb }
        "readdir")
  | .fcopy fromPosition length toTok toPosition => do
      let fh ← toHandle sessionId h
      let th ← toHandle sessionId toTok
      checkPosition fromPosition
      checkPosition toPosition
      let (reqId, newId) ← getRequest (Sum.inr "copy-data") st.id
      pure (execute { st with id := newId }
        { ptype := Sum.inr "copy-data", id := reqId,
          payload := dataBytes fh ++ i64Bytes fromPosition ++ i64Bytes length ++
            dataBytes th ++ i64Bytes toPosition }
        "fcopy")
  | .fhash alg position length blockSize => do
      let hb ← toHandle sessionId h
      checkPosition position
      let (reqId, newId) ← getRequest (Sum.inr "check-file-handle") st.id
      pure (execute { st with id := newId }
        { ptype := Sum.inr "check-file-handle", id := reqId,
          payload := dataBytes hb ++ dataBytes (strBytes alg) ++ i64Bytes position ++
            i64Bytes length ++ i32Bytes blockSize }
        "fhash")

/-! ### `parseData` (src/lib/sftp-client.ts lines 760–808) -/

/-- An inbound response frame: type code and the payload after type and id. -/
structure SftpResponsePkt where
  rtype : Nat
  payload : List Nat
deriving DecidableEq, Repr

/-- Source `readStatus` fields: a signed 32-bit code and a message string; yields
the remaining bytes after them. -/
def readStatusFields (bs : List Nat) : Option (Int × List Nat × List Nat) := do
  let (code, rest) ← readI32 bs
  let (msg, rest) ← readDataField rest
  pure (code, msg, rest)

/-- Source `data.copy(buffer, offset, 0, length)`: splice `length` bytes of `data`
into `buffer` at `offset`. -/
def jsBufferCopy (data buffer : List Nat) (offset length : Nat) : List Nat :=
  buffer.take offset ++ data.take length ++ buffer.drop (offset + length)

/-- Outcome of one `parseData` activation. -/
inductive ParseDataResult where
  /-- Source `callback(null, buffer, bytesRead)` -/
  | callbackData (buffer : List Nat) (bytesRead : Nat)
  /-- Source `callback(error, null, 0)` -/
  | callbackErr (native : Nat) (code : String) (errno : Int)
  /-- a re-issued READ: the u32 length field written into the retry frame,
  the `retries` argument of the parked continuation, and the `length`
  argument of the parked continuation -/
  | retryRead (writtenLength : Nat) (nextRetries : Nat) (nextLength : Nat)
  /-- a thrown exception -/
  | thrown (msg : String)
deriving DecidableEq, Repr

/-- Source `parseData`: STATUS handling (EOF completes with zero bytes, other
errors complete with the mapped error), the "Received too much data" guard,
the zero-byte workaround with its retry counter, and the data copy into the
caller's buffer.  Note that the local `length` is overwritten with
`data.length` BEFORE the retry frame is written. -/
def parseData (resp : SftpResponsePkt) (retries : Nat) (buffer : Option (List Nat))
    (offset length : Nat) : ParseDataResult :=
  let afterStatus : Option (List Nat) :=
    if resp.rtype = SftpPacketType.STATUS then none else some resp.payload
  match afterStatus with
  | none =>
      match readStatusFields resp.payload with
      | none => .thrown "bad status frame"
      | some (code, _msg, rest) =>
          if code ≠ (SftpStatusCode.OK : Nat) then
            if code = (SftpStatusCode.EOF : Nat) then
              -- `buffer ? buffer.slice(offset, 0) : new Buffer(0)` is empty
              .callbackData [] 0
            else
              .callbackErr code.toNat (errorCodeOf code.toNat).1 (errorCodeOf code.toNat).2
          else
            -- OK status: fall through to `readData` after the status fields
            parseDataBody rest retries buffer offset length
  | some bs => parseDataBody bs retries buffer offset length
where
  parseDataBody (bs : List Nat) (retries : Nat) (buffer : Option (List Nat))
      (offset length : Nat) : ParseDataResult :=
    match readDataField bs with
    | none => .thrown "bad data frame"
    | some (data, _) =>
        if data.length > length then .thrown "Received too much data"
        else
          -- `length = data.length;`
          let length := data.length
          if length = 0 then
            if retries > 4 then
              -- createError(FAILURE, "Unable to read data") with the code
              -- and errno overwritten to EIO / 55
              .callbackErr SftpStatusCode.FAILURE "EIO" 55
            else
              -- re-issued READ carries writeInt32(length) with length = 0
              .retryRead length (retries + 1) length
          else
            match buffer with
            | none => .callbackData data length
            | some b => .callbackData (jsBufferCopy data b offset length) length

/-! ## Theorems -/

theorem land63_eq_mod (n : Nat) : n &&& 63 = n % 64 := by
  apply Nat.eq_of_testBit_eq
  intro i
  rw [show (64 : Nat) = 2 ^ 6 by norm_num, Nat.testBit_and, Nat.testBit_mod_two_pow,
    show (63 : Nat) = 2 ^ 6 - 1 by norm_num, Nat.testBit_two_pow_sub_one, Bool.and_comm]

theorem normalize_mod64 (n : Nat) : SftpFlags.normalize n = SftpFlags.normalize (n % 64) := by
  unfold SftpFlags.normalize
  have h : n &&& SftpOpenFlags.ALL = n % 64 &&& SftpOpenFlags.ALL := by
    show n &&& 63 = n % 64 &&& 63
    rw [land63_eq_mod, land63_eq_mod, Nat.mod_mod_of_dvd _ (by norm_num)]
  rw [h]

/-- C7: for every 32-bit input, `SftpFlags.fromNumber` masks to the six
open-flag bits, and after the four normalization rules always lands on one
of the tabulated bitmasks, returning a non-empty string list — the trailing
`throw Error("Unsupported flags")` is unreachable. -/
theorem fromNumber_total (n : Nat) :
    SftpFlags.normalize n ∈ SftpFlags.tableKeys ∧
    ∃ l, SftpFlags.fromNumber n = some l ∧ l ≠ [] := by
  have key : ∀ m : Fin 64,
      SftpFlags.normalize m.val ∈ SftpFlags.tableKeys ∧
      (SftpFlags.fromNumber m.val).isSome = true ∧
      (SftpFlags.fromNumber m.val).getD [] ≠ [] := by decide
  have hmod := key ⟨n % 64, Nat.mod_lt _ (by norm_num)⟩
  have hn : SftpFlags.fromNumber n = SftpFlags.fromNumber (n % 64) := by
    unfold SftpFlags.fromNumber
    rw [normalize_mod64]
  refine ⟨by rw [normalize_mod64]; exact hmod.1, ?_⟩
  rcases hval : SftpFlags.fromNumber (n % 64) with _ | l
  · rw [hval] at hmod
    simp at hmod
  · refine ⟨l, by rw [hn, hval], ?_⟩
    rw [hval] at hmod
    simpa using hmod.2.2

/-- C8: for every symbolic open-mode string accepted by `toNumber`,
converting to a bitmask, back to the first canonical string via
`fromNumber`, and again to a bitmask reproduces the normalized bitmask. -/
theorem toNumber_fromNumber_roundtrip (s : String) (t : Nat)
    (h : SftpFlags.toNumber s = some t) :
    ∃ l s1, SftpFlags.fromNumber t = some l ∧ l.head? = some s1 ∧
      SftpFlags.toNumber s1 = some (SftpFlags.normalize t) := by
  unfold SftpFlags.toNumber at h
  split_ifs at h <;>
    (injection h with h; subst h; exact ⟨_, _, rfl, rfl, rfl⟩)

theorem toNumber_fromNumber_roundtrip_witness :
    ∃ l s1, SftpFlags.fromNumber 26 = some l ∧ l.head? = some s1 ∧
      SftpFlags.toNumber s1 = some (SftpFlags.normalize 26) :=
  toNumber_fromNumber_roundtrip "w" 26 rfl

/-- C1: delivering `(hardlink@openssh.com, "1")` then
`(hardlink@openssh.com, "2")` leaves the stored extension value at `"2"`,
not `"1,2"` — the comma-joined accumulation computed by `_init` is
discarded by the store that follows, so the last value wins and
`contains` then reports `"1"` as absent.  (On the intended value `"1,2"`,
`contains` would report `"1"` and `"2"` present and `"3"` absent.) -/
theorem extension_dedup_dropped :
    (initExtensions [("hardlink@openssh.com", "1"), ("hardlink@openssh.com", "2")]).lookup
        "hardlink@openssh.com" = some "2" ∧
    SftpExtensions.contains "2" "1" = false ∧
    SftpExtensions.contains "2" "2" = true ∧
    SftpExtensions.contains "2" "3" = false ∧
    SftpExtensions.contains "1,2" "1" = true ∧
    SftpExtensions.contains "1,2" "2" = true ∧
    SftpExtensions.contains "1,2" "3" = false := by
  refine ⟨?_, by decide, by decide, by decide, by decide, by decide, by decide⟩
  decide

/-- C2 counterexample: from a fresh session the `INIT` request is parked
under the `null` id (not id 1) and leaves the counter at 1; the first
non-handshake request therefore carries id 1 (not 2).  Moreover once the
counter has wrapped to the JS value `-1` (wire id `0xFFFFFFFF`), the
following request carries id 0, so id 0 is not reserved. -/
theorem first_request_id_is_one :
    getRequest (Sum.inl SftpPacketType.INIT) none = .ok (none, some 1) ∧
    getRequest (Sum.inl SftpPacketType.OPEN) (some 1) = .ok (some 1, some 2) ∧
    (some (1 : Int) ≠ some (2 : Int)) ∧ ((none : Option Int) ≠ some 1) ∧
    getRequest (Sum.inl SftpPacketType.OPEN) (some (-1)) = .ok (some (-1), some 0) ∧
    getRequest (Sum.inl SftpPacketType.OPEN) (some 0) = .ok (some 0, some 1) := by
  refine ⟨rfl, rfl, by decide, by decide, rfl, rfl⟩

/-- C2 amended: ids are allocated by a counter that increments by one
modulo `2^32` (as a JS signed 32-bit value); the handshake packet is
bookkept under the `null` id and sets the counter to 1, so the first
non-handshake request carries id 1 and the `OPEN` frame of the first
`open` call carries request id 1. -/
theorem request_id_allocation (t : Nat ⊕ String) (v : Int)
    (ht : t ≠ Sum.inl SftpPacketType.INIT) :
    getRequest (Sum.inl SftpPacketType.INIT) none = .ok (none, some 1) ∧
    getRequest t (some v) = .ok (some v, some (jsToInt32 (v + 1))) ∧
    jsToInt32 (v + 1) % 2 ^ 32 = (v + 1) % 2 ^ 32 := by
  refine ⟨rfl, ?_, ?_⟩
  · unfold getRequest
    rw [if_neg ht]
    rfl
  · unfold jsToInt32
    omega

theorem request_id_allocation_witness :
    getRequest (Sum.inl SftpPacketType.INIT) none = .ok (none, some 1) ∧
    getRequest (Sum.inl SftpPacketType.OPEN) (some 1)
      = .ok (some 1, some (jsToInt32 (1 + 1))) ∧
    jsToInt32 (1 + 1) % 2 ^ 32 = (1 + 1) % 2 ^ 32 :=
  request_id_allocation (Sum.inl SftpPacketType.OPEN) 1 (by decide)

/-- C9: `rename` with flags other than 0 and `OVERWRITE` schedules TWO
asynchronous `OP_UNSUPPORTED` (ENOSYS, errno 35) callbacks — one from the
fall-through `default` arm and one from the generic dispatch seeing an
`undefined` command — and hands no bytes to the channel, leaving the
session state unchanged. -/
theorem rename_bad_flags_double_error (st : SftpState)
    (features : List (String × String)) (oldPath newPath : String) (flags : Nat)
    (h0 : flags ≠ 0) (h1 : flags ≠ RenameFlags.OVERWRITE) :
    (rename st features oldPath newPath flags).1 =
      [.asyncErr "rename" SftpStatusCode.OP_UNSUPPORTED "ENOSYS" 35
         "Unsupported rename flags",
       .asyncErr "rename" SftpStatusCode.OP_UNSUPPORTED "ENOSYS" 35
         "Operation not supported"] ∧
    (rename st features oldPath newPath flags).2 = st := by
  simp only [rename, commandRun, if_neg h1, if_neg h0]
  exact ⟨rfl, trivial⟩

theorem rename_bad_flags_double_error_witness :
    (rename ⟨true, some 1, []⟩ [] "a" "b" 4).1 =
      [.asyncErr "rename" SftpStatusCode.OP_UNSUPPORTED "ENOSYS" 35
         "Unsupported rename flags",
       .asyncErr "rename" SftpStatusCode.OP_UNSUPPORTED "ENOSYS" 35
         "Operation not supported"] ∧
    (rename ⟨true, some 1, []⟩ [] "a" "b" 4).2 = ⟨true, some 1, []⟩ :=
  rename_bad_flags_double_error ⟨true, some 1, []⟩ [] "a" "b" 4
    (by decide) (by decide)

/-- C5 counterexample: `end()` on a session whose single parked
continuation is the in-flight handshake — parked under the `null` id, as
`_init` parks it — invokes NO continuation at all: `requests.forEach`
visits only non-negative integer indices, so the `null`-keyed entry is
skipped and never failed with `CONNECTION_LOST`. -/
theorem end_skips_null_keyed_init :
    (sftpEnd ⟨true, some 1, [(none, "init")]⟩).2 = [] ∧
    [((none : Option Int), "init")].length = 1 :=
  ⟨rfl, rfl⟩

/-- C5 amended: after `end()` on a session with N parked continuations,
each continuation parked under a non-negative request id is invoked
exactly once with the `ESHUTDOWN`/`CONNECTION_LOST` error; a continuation
parked under the `null` key (the in-flight handshake) or under a negative
id is dropped without ever being invoked; the correlation table is left
empty and the channel detached; and every subsequent submit fails
asynchronously with `NO_CONNECTION` (`ENOTCONN`, errno 31) — nothing is
indexed and nothing is sent. -/
theorem end_drains_and_blocks (st : SftpState)
    (hkeys : (st.requests.map Prod.fst).Nodup) :
    (sftpEnd st).1.requests = [] ∧
    (sftpEnd st).1.host = false ∧
    (sftpEnd st).2.length = (st.requests.filter isArrayIndexKey).length ∧
    (∀ r ∈ st.requests, ∀ k : Int, r.1 = some k → 0 ≤ k →
      (sftpEnd st).2.count
        (.callbackErr r.1 r.2 SftpStatusCode.CONNECTION_LOST "ESHUTDOWN" 46
          "Connection closed") = 1) ∧
    (∀ r ∈ st.requests, r.1 = none →
      (sftpEnd st).2.count
        (.callbackErr r.1 r.2 SftpStatusCode.CONNECTION_LOST "ESHUTDOWN" 46
          "Connection closed") = 0) ∧
    (∀ r ∈ st.requests, ∀ k : Int, r.1 = some k → k < 0 →
      (sftpEnd st).2.count
        (.callbackErr r.1 r.2 SftpStatusCode.CONNECTION_LOST "ESHUTDOWN" 46
          "Connection closed") = 0) ∧
    (∀ p info, execute (sftpEnd st).1 p info =
      ([.asyncErr info SftpStatusCode.NO_CONNECTION "ENOTCONN" 31 "Not connected"],
       (sftpEnd st).1)) := by
  have hinj : Function.Injective
      (fun r : Option Int × String =>
        SftpEvent.callbackErr r.1 r.2 SftpStatusCode.CONNECTION_LOST "ESHUTDOWN" 46
          "Connection closed") := by
    intro a b hab
    injection hab with h1 h2 h3 h4 h5 h6
    exact Prod.ext h1 h2
  have hcnt : (sftpEnd st).2 = (st.requests.filter isArrayIndexKey).map
      (fun r : Option Int × String =>
        SftpEvent.callbackErr r.1 r.2 SftpStatusCode.CONNECTION_LOST "ESHUTDOWN" 46
          "Connection closed") := rfl
  have hfnodup : (st.requests.filter isArrayIndexKey).Nodup :=
    (hkeys.of_map Prod.fst).filter _
  refine ⟨rfl, rfl, by rw [hcnt, List.length_map], ?_, ?_, ?_, fun p info => rfl⟩
  · intro r hr k hk hge
    have hP : isArrayIndexKey r = true := by
      obtain ⟨r1, r2⟩ := r
      simp only at hk
      subst hk
      simpa [isArrayIndexKey] using hge
    have hmem : r ∈ st.requests.filter isArrayIndexKey :=
      List.mem_filter.mpr ⟨hr, hP⟩
    rw [hcnt, List.count_map_of_injective _ _ hinj,
      List.count_eq_one_of_mem hfnodup hmem]
  · intro r hr hk
    have hP : isArrayIndexKey r = false := by
      obtain ⟨r1, r2⟩ := r
      simp only at hk
      subst hk
      simp [isArrayIndexKey]
    rw [hcnt]
    apply List.count_eq_zero_of_not_mem
    intro hmem
    obtain ⟨r', hr'mem, heq⟩ := List.mem_map.mp hmem
    cases hinj heq
    have hPt := (List.mem_filter.mp hr'mem).2
    rw [hP] at hPt
    exact Bool.false_ne_true hPt
  · intro r hr k hk hneg
    have hP : isArrayIndexKey r = false := by
      obtain ⟨r1, r2⟩ := r
      simp only at hk
      subst hk
      simp only [isArrayIndexKey, decide_eq_false_iff_not, not_le]
      exact hneg
    rw [hcnt]
    apply List.count_eq_zero_of_not_mem
    intro hmem
    obtain ⟨r', hr'mem, heq⟩ := List.mem_map.mp hmem
    cases hinj heq
    have hPt := (List.mem_filter.mp hr'mem).2
    rw [hP] at hPt
    exact Bool.false_ne_true hPt

theorem end_drains_and_blocks_witness :
    (sftpEnd ⟨true, some 3, [(none, "init"), (some 1, "open"), (some 2, "read")]⟩).1.requests
        = [] ∧
    (sftpEnd ⟨true, some 3, [(none, "init"), (some 1, "open"), (some 2, "read")]⟩).1.host
        = false ∧
    (sftpEnd ⟨true, some 3, [(none, "init"), (some 1, "open"), (some 2, "read")]⟩).2.length =
      ([((none : Option Int), "init"), (some 1, "open"), (some 2, "read")].filter
        isArrayIndexKey).length ∧
    (∀ r ∈ [((none : Option Int), "init"), (some 1, "open"), (some 2, "read")],
      ∀ k : Int, r.1 = some k → 0 ≤ k →
      (sftpEnd ⟨true, some 3, [(none, "init"), (some 1, "open"), (some 2, "read")]⟩).2.count
        (.callbackErr r.1 r.2 SftpStatusCode.CONNECTION_LOST "ESHUTDOWN" 46
          "Connection closed") = 1) ∧
    (∀ r ∈ [((none : Option Int), "init"), (some 1, "open"), (some 2, "read")],
      r.1 = none →
      (sftpEnd ⟨true, some 3, [(none, "init"), (some 1, "open"), (some 2, "read")]⟩).2.count
        (.callbackErr r.1 r.2 SftpStatusCode.CONNECTION_LOST "ESHUTDOWN" 46
          "Connection closed") = 0) ∧
    (∀ r ∈ [((none : Option Int), "init"), (some 1, "open"), (some 2, "read")],
      ∀ k : Int, r.1 = some k → k < 0 →
      (sftpEnd ⟨true, some 3, [(none, "init"), (some 1, "open"), (some 2, "read")]⟩).2.count
        (.callbackErr r.1 r.2 SftpStatusCode.CONNECTION_LOST "ESHUTDOWN" 46
          "Connection closed") = 0) ∧
    (∀ p info,
      execute
        (sftpEnd ⟨true, some 3, [(none, "init"), (some 1, "open"), (some 2, "read")]⟩).1
        p info =
      ([.asyncErr info SftpStatusCode.NO_CONNECTION "ENOTCONN" 31 "Not connected"],
       (sftpEnd ⟨true, some 3, [(none, "init"), (some 1, "open"), (some 2, "read")]⟩).1)) :=
  end_drains_and_blocks
    ⟨true, some 3, [(none, "init"), (some 1, "open"), (some 2, "read")]⟩ (by decide)

/-- C6: every handle-accepting operation (`close`, `read`, `write`,
`fstat`, `fsetstat`, `readdir`, `fcopy`, `fhash`) converts the handle via
`toHandle` before doing anything else, so a handle whose recorded owning
session differs from the current session raises the synchronous
"Invalid handle" error before any packet is built or any bytes are handed
to the channel. -/
theorem handle_ownership_enforced (sessionId : Nat) (st : SftpState)
    (tok : SftpHandleTok) (op : HandleOp) (h : tok.owner ≠ sessionId) :
    runHandleOp sessionId st (some tok) op = .error "Invalid handle" := by
  cases op <;>
    simp only [runHandleOp, toHandle, if_neg h] <;> rfl

theorem handle_ownership_enforced_witness :
    runHandleOp 1 ⟨true, some 5, []⟩ (some ⟨[0xAB], 2⟩) .close
      = .error "Invalid handle" :=
  handle_ownership_enforced 1 ⟨true, some 5, []⟩ ⟨[0xAB], 2⟩ .close (by decide)

/-- C3 counterexample: with the retry counter at 4 (four re-submissions
already made), a fifth consecutive zero-byte DATA reply triggers a FIFTH
re-submission rather than the claimed `EIO(55)` failure; the error only
surfaces once the counter exceeds 4, i.e. on the sixth empty reply. -/
theorem read_retry_fifth_resubmission :
    parseData ⟨SftpPacketType.DATA, dataBytes []⟩ 4 none 0 1024 = .retryRead 0 5 0 ∧
    parseData ⟨SftpPacketType.DATA, dataBytes []⟩ 5 none 0 0
      = .callbackErr SftpStatusCode.FAILURE "EIO" 55 :=
  ⟨rfl, rfl⟩

/-- C3 amended: on zero-byte DATA replies the engine re-submits the READ
while the retry counter is at most 4 — so up to FIVE re-submissions — and
the caller's callback receives the `EIO` (errno 55) error exactly when the
counter exceeds 4, i.e. on the sixth consecutive empty reply. -/
theorem read_empty_retry_schedule (retries length offset : Nat)
    (buffer : Option (List Nat)) :
    (retries ≤ 4 →
      parseData ⟨SftpPacketType.DATA, dataBytes []⟩ retries buffer offset length
        = .retryRead 0 (retries + 1) 0) ∧
    (4 < retries →
      parseData ⟨SftpPacketType.DATA, dataBytes []⟩ retries buffer offset length
        = .callbackErr SftpStatusCode.FAILURE "EIO" 55) := by
  refine ⟨fun h => ?_, fun h => ?_⟩
  · have h4 : ¬ (4 < retries) := by omega
    simp [parseData, parseData.parseDataBody, readDataField, readU32, dataBytes,
      u32Bytes, SftpPacketType.DATA, SftpPacketType.STATUS, h4]
  · simp [parseData, parseData.parseDataBody, readDataField, readU32, dataBytes,
      u32Bytes, SftpPacketType.DATA, SftpPacketType.STATUS, h]

theorem read_empty_retry_schedule_witness :
    parseData ⟨SftpPacketType.DATA, dataBytes []⟩ 0 none 0 1024 = .retryRead 0 1 0 ∧
    parseData ⟨SftpPacketType.DATA, dataBytes []⟩ 5 none 0 1024
      = .callbackErr SftpStatusCode.FAILURE "EIO" 55 :=
  ⟨(read_empty_retry_schedule 0 1024 0 none).1 (by decide),
   (read_empty_retry_schedule 5 1024 0 none).2 (by decide)⟩

/-- C10: whenever a zero-byte DATA reply triggers a retry, the re-issued
READ frame's `writeInt32(length)` writes 0 — the local `length` has been
overwritten with `data.length` (zero) before the retry frame is built —
and the parked continuation also receives length 0, for every retry
iteration and regardless of the length the caller originally asked for. -/
theorem retry_read_writes_length_zero (retries length offset : Nat)
    (buffer : Option (List Nat)) (h : retries ≤ 4) :
    parseData ⟨SftpPacketType.DATA, dataBytes []⟩ retries buffer offset length
      = .retryRead 0 (retries + 1) 0 := by
  have h4 : ¬ (4 < retries) := by omega
  simp [parseData, parseData.parseDataBody, readDataField, readU32, dataBytes,
    u32Bytes, SftpPacketType.DATA, SftpPacketType.STATUS, h4]

theorem retry_read_writes_length_zero_witness :
    parseData ⟨SftpPacketType.DATA, dataBytes []⟩ 2 none 0 65536 = .retryRead 0 3 0 :=
  retry_read_writes_length_zero 2 65536 0 none (by decide)

theorem readU32_u32Bytes_mod (v : Nat) (rest : List Nat) :
    readU32 (u32Bytes v ++ rest) = some (v % 2 ^ 32, rest) := by
  simp only [u32Bytes, List.cons_append, List.nil_append, readU32,
    Option.some.injEq, Prod.mk.injEq, and_true]
  omega

theorem readU32_u32Bytes (v : Nat) (h : v < 2 ^ 32) (rest : List Nat) :
    readU32 (u32Bytes v ++ rest) = some (v, rest) := by
  rw [readU32_u32Bytes_mod, Nat.mod_eq_of_lt h]

theorem readU32_i32Bytes_ofNat (v : Nat) (h : v < 2 ^ 32) (rest : List Nat) :
    readU32 (i32Bytes v ++ rest) = some (v, rest) := by
  have hmod : ((v : Int) % 2 ^ 32).toNat = v := by omega
  rw [i32Bytes, hmod]
  exact readU32_u32Bytes v h rest

theorem readI32_i32Bytes (v : Int) (h1 : -(2 ^ 31) ≤ v) (h2 : v < 2 ^ 31)
    (rest : List Nat) : readI32 (i32Bytes v ++ rest) = some (v, rest) := by
  have hu : ((v % 2 ^ 32).toNat : Int) = v % 2 ^ 32 := by omega
  have hult : (v % 2 ^ 32).toNat < 2 ^ 32 := by omega
  rw [readI32, i32Bytes, readU32_u32Bytes _ hult rest]
  simp only [Option.map_some']
  split
  · rename_i hlt
    simp only [Option.some.injEq, Prod.mk.injEq, and_true]
    omega
  · rename_i hlt
    simp only [Option.some.injEq, Prod.mk.injEq, and_true]
    omega

theorem readI64_i64Bytes (v : Int) (h1 : -(2 ^ 63) ≤ v) (h2 : v < 2 ^ 63)
    (rest : List Nat) : readI64 (i64Bytes v ++ rest) = some (v, rest) := by
  have hu : ((v % 2 ^ 64).toNat : Int) = v % 2 ^ 64 := by omega
  have hsplit : (v % 2 ^ 64).toNat / 2 ^ 32 < 2 ^ 32 := by omega
  rw [readI64, i64Bytes, u64Bytes, List.append_assoc, readU32_u32Bytes _ hsplit]
  simp only [Option.pure_def, Option.bind_eq_bind, Option.some_bind]
  rw [readU32_u32Bytes_mod]
  simp only [Option.some_bind]
  have hcomb : (v % 2 ^ 64).toNat / 2 ^ 32 * 2 ^ 32 + (v % 2 ^ 64).toNat % 2 ^ 32
      = (v % 2 ^ 64).toNat := by omega
  rw [hcomb]
  split
  · rename_i hlt
    simp only [Option.some.injEq, Prod.mk.injEq, and_true]
    omega
  · rename_i hlt
    simp only [Option.some.injEq, Prod.mk.injEq, and_true]
    omega

/-- C4 counterexample: an attributes record whose `flags` word is exactly
the `EXTENDED` bit (no metadata) does not survive the round trip — the
decoding constructor clears `EXTENDED` from the stored flags, so the
decoded record's flags word is 0. -/
theorem attributes_extended_not_roundtrip :
    SftpAttributes.read (SftpAttributes.write { flags := 0x80000000 })
        = some ({ flags := 0 }, []) ∧
    SftpAttributes.read (SftpAttributes.write { flags := 0x80000000 })
        ≠ some ({ flags := 0x80000000 }, []) := by
  refine ⟨by decide, by decide⟩

theorem readOptSize_roundtrip (flags : Nat) (size : Option Int)
    (h0 : flags &&& SftpAttributeFlags.SIZE = 0 → size = none)
    (h1 : flags &&& SftpAttributeFlags.SIZE ≠ 0 →
      ∃ s, size = some s ∧ 0 ≤ s ∧ s < 2 ^ 63) (rest : List Nat) :
    readOptSize flags (writeOptSize flags size ++ rest) = some (size, rest) := by
  by_cases hb : flags &&& SftpAttributeFlags.SIZE = 0
  · simp [readOptSize, writeOptSize, hb, h0 hb]
  · obtain ⟨s, hs, hge, hlt⟩ := h1 hb
    subst hs
    simp [readOptSize, writeOptSize, hb, readI64_i64Bytes s (by omega) hlt]

theorem readOptUidGid_roundtrip (flags : Nat) (uid gid : Option Int)
    (h0 : flags &&& SftpAttributeFlags.UIDGID = 0 → uid = none ∧ gid = none)
    (h1 : flags &&& SftpAttributeFlags.UIDGID ≠ 0 →
      ∃ u g, uid = some u ∧ gid = some g ∧
        -(2 ^ 31) ≤ u ∧ u < 2 ^ 31 ∧ -(2 ^ 31) ≤ g ∧ g < 2 ^ 31) (rest : List Nat) :
    readOptUidGid flags (writeOptUidGid flags uid gid ++ rest)
      = some (uid, gid, rest) := by
  by_cases hb : flags &&& SftpAttributeFlags.UIDGID = 0
  · simp [readOptUidGid, writeOptUidGid, hb, (h0 hb).1, (h0 hb).2]
  · obtain ⟨u, g, hu, hg, hu1, hu2, hg1, hg2⟩ := h1 hb
    subst hu
    subst hg
    simp [readOptUidGid, writeOptUidGid, hb, List.append_assoc,
      readI32_i32Bytes u hu1 hu2, readI32_i32Bytes g hg1 hg2]

theorem readOptMode_roundtrip (flags : Nat) (mode : Option Nat)
    (h0 : flags &&& SftpAttributeFlags.PERMISSIONS = 0 → mode = none)
    (h1 : flags &&& SftpAttributeFlags.PERMISSIONS ≠ 0 →
      ∃ m, mode = some m ∧ m < 2 ^ 32) (rest : List Nat) :
    readOptMode flags (writeOptMode flags mode ++ rest) = some (mode, rest) := by
  by_cases hb : flags &&& SftpAttributeFlags.PERMISSIONS = 0
  · simp [readOptMode, writeOptMode, hb, h0 hb]
  · obtain ⟨m, hm, hmlt⟩ := h1 hb
    subst hm
    simp [readOptMode, writeOptMode, hb, readU32_i32Bytes_ofNat m hmlt]

theorem readOptTimes_roundtrip (flags : Nat) (atime mtime : Option Nat)
    (h0 : flags &&& SftpAttributeFlags.ACMODTIME = 0 → atime = none ∧ mtime = none)
    (h1 : flags &&& SftpAttributeFlags.ACMODTIME ≠ 0 →
      ∃ x y, atime = some x ∧ mtime = some y ∧ x < 2 ^ 32 ∧ y < 2 ^ 32)
    (rest : List Nat) :
    readOptTimes flags (writeOptTimes flags atime mtime ++ rest)
      = some (atime, mtime, rest) := by
  by_cases hb : flags &&& SftpAttributeFlags.ACMODTIME = 0
  · simp [readOptTimes, writeOptTimes, hb, (h0 hb).1, (h0 hb).2]
  · obtain ⟨x, y, hx, hy, hx1, hy1⟩ := h1 hb
    subst hx
    subst hy
    simp [readOptTimes, writeOptTimes, hb, List.append_assoc,
      readU32_i32Bytes_ofNat x hx1, readU32_i32Bytes_ofNat y hy1]

/-- C4 amended: for every representable attributes record whose flags word
does NOT include the `EXTENDED` bit (and hence carries no metadata),
decoding the bytes produced by encoding yields the record again with no
bytes left over.  (With `EXTENDED` set the round trip fails — the decoder
clears the bit — see the counterexample.) -/
theorem attributes_roundtrip (a : SftpAttributes) (hwf : a.wf)
    (hext : a.flags &&& SftpAttributeFlags.EXTENDED = 0) :
    SftpAttributes.read a.write = some (a, []) := by
  obtain ⟨flags, size, uid, gid, mode, atime, mtime, metadata⟩ := a
  obtain ⟨hlt, hs0, hs1, hug0, hug1, hm0, hm1, ht0, ht1, hmd⟩ := hwf
  simp only at hlt hs0 hs1 hug0 hug1 hm0 hm1 ht0 ht1 hmd hext
  have hmdn := hmd hext
  subst hmdn
  have hT := readOptTimes_roundtrip flags atime mtime ht0 ht1 []
  rw [List.append_nil] at hT
  rw [SftpAttributes.read, SftpAttributes.write]
  simp [writeExtendedBlock, hext, List.append_assoc,
    readU32_i32Bytes_ofNat flags hlt,
    readOptSize_roundtrip flags size hs0 hs1,
    readOptUidGid_roundtrip flags uid gid hug0 hug1,
    readOptMode_roundtrip flags mode hm0 hm1,
    readOptTimes_roundtrip flags atime mtime ht0 ht1, hT]

theorem attributes_roundtrip_witness :
    SftpAttributes.wf
      { flags := 15, size := some 4096, uid := some 1000, gid := some (-1),
        mode := some 0o644, atime := some 1700000000, mtime := some 1700000001,
        metadata := none } ∧
    SftpAttributes.read
        (SftpAttributes.write
          { flags := 15, size := some 4096, uid := some 1000, gid := some (-1),
            mode := some 0o644, atime := some 1700000000, mtime := some 1700000001,
            metadata := none })
      = some ({ flags := 15, size := some 4096, uid := some 1000, gid := some (-1),
                mode := some 0o644, atime := some 1700000000,
                mtime := some 1700000001, metadata := none }, []) := by
  have hwf : SftpAttributes.wf
      { flags := 15, size := some 4096, uid := some 1000, gid := some (-1),
        mode := some 0o644, atime := some 1700000000, mtime := some 1700000001,
        metadata := none } :=
    ⟨by decide,
     fun h => absurd h (by decide),
     fun _ => ⟨4096, rfl, by decide, by decide⟩,
     fun h => absurd h (by decide),
     fun _ => ⟨1000, -1, rfl, rfl, by decide, by decide, by decide, by decide⟩,
     fun h => absurd h (by decide),
     fun _ => ⟨0o644, rfl, by decide⟩,
     fun h => absurd h (by decide),
     fun _ => ⟨1700000000, 1700000001, rfl, rfl, by decide, by decide⟩,
     fun _ => rfl⟩
  exact ⟨hwf,
    attributes_roundtrip
      { flags := 15, size := some 4096, uid := some 1000, gid := some (-1),
        mode := some 0o644, atime := some 1700000000, mtime := some 1700000001,
        metadata := none } hwf (by decide)⟩
